import Mathlib

/-!
# Verification of the runbook safety core

This development gives a shallow embedding, in Lean, of the safety-critical core of
the `wardenxt` runbook system: the command safety classifier
(`backend/app/core/command_executor.py`), the runbook validator and constructor
(`backend/app/core/runbook_generator.py`), and the cache / execution API layer
(`backend/app/api/runbooks.py`), together with theorems settling the specified
properties of those components.

Modelling conventions:
* Python strings are Lean `String` / `List Char`; `str.lower` is modelled by the
  ASCII `lowerChar` map, and `re.IGNORECASE` matching by matching lower-cased
  patterns against the lower-cased text.
* Python regular expressions are embedded in a small derivative-based matcher
  (`RE`), one constructor per construct actually used by the source patterns.
* Timestamps (`datetime.utcnow()`) are modelled as integer minute counts passed
  in as explicit parameters; `timedelta(minutes=60)` comparisons become integer
  comparisons.
* Python dicts keyed by incident id are association lists; raising `HTTPException`
  is `Except HTTPError`.
-/

/-! ## A small regex engine (Brzozowski derivatives) modelling `re.search` -/

inductive RE where
  | nul : RE
  | eps : RE
  | chr (p : Char → Bool) : RE
  | cat (a b : RE) : RE
  | alt (a b : RE) : RE
  | star (a : RE) : RE

namespace RE

def nullable : RE → Bool
  | .nul => false
  | .eps => true
  | .chr _ => false
  | .cat a b => nullable a && nullable b
  | .alt a b => nullable a || nullable b
  | .star _ => true

/-- Smart concatenation, collapsing failure and unit. -/
def catS : RE → RE → RE
  | .nul, _ => .nul
  | _, .nul => .nul
  | .eps, b => b
  | a, .eps => a
  | a, b => .cat a b

/-- Smart alternation, collapsing failure. -/
def altS : RE → RE → RE
  | .nul, b => b
  | a, .nul => a
  | a, b => .alt a b

/-- Brzozowski derivative. -/
def deriv : RE → Char → RE
  | .nul, _ => .nul
  | .eps, _ => .nul
  | .chr p, c => if p c then .eps else .nul
  | .cat a b, c => if nullable a then altS (catS (deriv a c) b) (deriv b c) else catS (deriv a c) b
  | .alt a b, c => altS (deriv a c) (deriv b c)
  | .star a, c => catS (deriv a c) (.star a)

/-- Does some prefix of `s` match `r`? -/
def existsPrefix (r : RE) : List Char → Bool
  | [] => nullable r
  | c :: cs => nullable r || existsPrefix (deriv r c) cs

/-- Does `r` match somewhere inside `s`?  This is the Boolean content of Python
`re.search(r, s)`. -/
def search (r : RE) : List Char → Bool
  | [] => nullable r
  | c :: cs => existsPrefix r (c :: cs) || search r cs

def plus (r : RE) : RE := .cat r (.star r)

def seq : List RE → RE
  | [] => .eps
  | [r] => r
  | r :: rs => .cat r (seq rs)

/-- A literal string, one `chr` per character. -/
def lit (s : String) : RE := seq (s.toList.map (fun c => .chr (· == c)))

end RE

/-! ## Character-level helpers -/

/-- ASCII lower-casing, modelling Python `str.lower` on command text. -/
def lowerChar (c : Char) : Char :=
  if 'A' ≤ c ∧ c ≤ 'Z' then Char.ofNat (c.toNat + 32) else c

/-- Python whitespace (the class `\s` and the default of `str.strip`). -/
def isPySpace (c : Char) : Bool :=
  c == ' ' || c == '\t' || c == '\n' || c == '\r' || c == '\x0b' || c == '\x0c'

/-- Python `\w` on ASCII text. -/
def isPyWord (c : Char) : Bool := c.isAlpha || c.isDigit || c == '_'

def wsPlus : RE := RE.plus (.chr isPySpace)

def wsStar : RE := .star (.chr isPySpace)

def dotStar : RE := .star (.chr (fun c => c != '\n'))

def wordPlus : RE := RE.plus (.chr isPyWord)

/-- Python `str.strip()` on a character list. -/
def pyStrip (cs : List Char) : List Char :=
  ((cs.dropWhile isPySpace).reverse.dropWhile isPySpace).reverse

/-- The lower-cased form of a command string. -/
def lowered (s : String) : List Char := s.toList.map lowerChar

/-! ## The safety classifier (`validate_command_safety`)

Each entry of `DANGEROUS_PATTERNS` carries the embedded regex (written against
lower-cased text, modelling `re.IGNORECASE`) and the original pattern text, which
the code interpolates into the blocking reason. -/

open RE in
def DANGEROUS_PATTERNS : List (RE × String) := [
  (seq [lit "rm", wsPlus, lit "-rf", wsPlus, lit "/"], "rm\\s+-rf\\s+/"),
  (seq [lit "rm", wsPlus, lit "-rf", wsPlus, lit "*"], "rm\\s+-rf\\s+\\*"),
  (seq [lit "dd", wsPlus, lit "if=/dev/zero"], "dd\\s+if=/dev/zero"),
  (seq [lit "dd", wsPlus, lit "if=/dev/urandom"], "dd\\s+if=/dev/urandom"),
  (lit "mkfs.", "mkfs\\."),
  (seq [lit "iptables", wsPlus, lit "-f"], "iptables\\s+-F"),
  (lit "shutdown", "shutdown"),
  (lit "reboot", "reboot"),
  (lit "halt", "halt"),
  (seq [lit "init", wsPlus, chr (fun c => c == '0' || c == '6')], "init\\s+[06]"),
  (seq [lit "chmod", wsPlus, lit "-r", wsPlus, lit "777"], "chmod\\s+-R\\s+777"),
  (seq [lit "chown", wsPlus, lit "-r", wsPlus, lit "root"], "chown\\s+-R\\s+root"),
  (seq [lit "drop", wsPlus, lit "database"], "DROP\\s+DATABASE"),
  (seq [lit "drop", wsPlus, lit "table"], "DROP\\s+TABLE"),
  (lit "truncate", "TRUNCATE"),
  (seq [lit "delete", wsPlus, lit "from", wsPlus, wordPlus, wsStar, lit ";"], "DELETE\\s+FROM\\s+\\w+\\s*;"),
  (seq [lit "update", wsPlus, wordPlus, wsPlus, lit "set", dotStar, wsStar, lit ";"], "UPDATE\\s+\\w+\\s+SET.*\\s*;"),
  (seq [lit "curl", dotStar, lit "|", wsStar, lit "bash"], "curl.*\\|\\s*bash"),
  (seq [lit "wget", dotStar, lit "|", wsStar, lit "sh"], "wget.*\\|\\s*sh"),
  (lit "eval", "eval"),
  (seq [plus (chr (· == '>')), wsStar, lit "/dev/sd",
        chr (fun c => Nat.ble 97 c.toNat && Nat.ble c.toNat 122)], ">+\\s*/dev/sd[a-z]"),
  (lit "fdisk", "fdisk"),
  (lit "parted", "parted")]

def SAFE_COMMANDS : List String := [
  "kubectl get", "kubectl describe", "kubectl logs", "docker ps", "docker inspect",
  "docker logs", "systemctl status", "journalctl", "ps aux", "top", "htop", "netstat",
  "ss", "lsof", "df -h", "du -sh", "free -m", "uptime", "who", "last", "cat", "tail",
  "head", "less", "grep", "awk", "sed", "curl", "wget", "ping", "dig", "nslookup",
  "traceroute", "telnet", "nc", "SELECT", "SHOW", "DESCRIBE", "EXPLAIN"]

open RE in
def medium_risk_patterns : List RE := [
  lit "kubectl apply", lit "kubectl delete", lit "kubectl scale", lit "kubectl patch",
  lit "kubectl rollout", lit "systemctl restart", lit "systemctl stop", lit "systemctl start",
  lit "docker restart", lit "docker stop", lit "docker start", lit "git", lit "npm",
  lit "yarn", lit "pip install", lit "apt-get", lit "yum", lit "insert into",
  seq [lit "update", dotStar, lit "where"], seq [lit "delete", dotStar, lit "where"]]

open RE in
def high_risk_patterns : List RE := [
  lit "kubectl delete deployment", lit "kubectl delete service", lit "kubectl delete namespace",
  lit "rm ", lit "mv ", lit "chmod", lit "chown", lit "alter table", lit "create database",
  lit "drop "]

/-- The body of `validate_command_safety`, operating on the lower-cased command text.
The Python function computes `command_lower = command.lower().strip()` for the
safe-prefix test and searches the raw command with `re.IGNORECASE` for the pattern
tests; both are functions of the lower-cased text, which this definition takes as
its argument. -/
def classifyLow (low : List Char) : Bool × String × String :=
  match DANGEROUS_PATTERNS.find? (fun p => RE.search p.1 low) with
  | some p => (false, "high",
      "Command matches dangerous pattern: " ++ p.2 ++ ". This command is blocked for safety.")
  | none =>
    let command_lower := pyStrip low
    if SAFE_COMMANDS.any (fun s => List.isPrefixOf (s.toList.map lowerChar) command_lower) then
      (true, "safe", "Command is read-only and considered safe")
    else if medium_risk_patterns.any (fun p => RE.search p low) then
      (true, "medium", "Command modifies system state. Requires approval.")
    else if high_risk_patterns.any (fun p => RE.search p low) then
      (true, "high", "High-risk command that requires explicit confirmation (type \x27EXECUTE\x27)")
    else
      (true, "medium", "Command not recognized as safe. Requires approval before execution.")

/-- `validate_command_safety(command) -> (is_safe, risk_level, reason)`. -/
def validate_command_safety (command : String) : Bool × String × String :=
  classifyLow (lowered command)

/-! ## Data model (`app/models/runbook.py`) -/

structure RunbookCommand where
  command : String
  description : String
  risk_level : String
  expected_output : Option String
  timeout_seconds : Nat
  requires_approval : Bool
deriving DecidableEq

structure RunbookStep where
  step_number : Int
  category : String
  title : String
  commands : List RunbookCommand
  prerequisite_steps : List Int
  estimated_duration : String
deriving DecidableEq

/-- `generated_at` (an ISO timestamp string in the source) is modelled as an
integer minute count. -/
structure Runbook where
  incident_id : String
  generated_at : Int
  incident_type : String
  severity : String
  steps : List RunbookStep
  total_steps : Nat
  estimated_total_time : String
  warnings : List String
  prerequisites : List String
deriving DecidableEq

/-- `executed_at` is modelled as an integer minute count, `duration_seconds`
as the integer difference of the entry and exit clocks. -/
structure ExecutionResult where
  step_number : Int
  command_index : Int
  command : String
  success : Bool
  output : String
  error : Option String
  executed_at : Int
  executed_by : String
  dry_run : Bool
  duration_seconds : Int
deriving DecidableEq

structure RunbookExecuteRequest where
  step_number : Int
  command_index : Int
  dry_run : Bool
  confirmation_text : Option String
  executed_by : String
deriving DecidableEq

/-- One entry of `dangerous_commands` (a dict with keys step/command/reason in the
source). -/
structure DangerousEntry where
  step : Int
  command : String
  reason : String
deriving DecidableEq

structure RunbookValidationResult where
  is_valid : Bool
  issues : List String
  warnings : List String
  dangerous_commands : List DangerousEntry
deriving DecidableEq

/-! ## Execution controller (`execute_command`, `generate_simulated_output`) -/

/-- Python `needle in haystack` on strings. -/
def containsSub (needle : List Char) : List Char → Bool
  | [] => needle.isPrefixOf []
  | c :: cs => needle.isPrefixOf (c :: cs) || containsSub needle cs

/-- `generate_simulated_output`: deterministic simulated output keyed by
substrings of the lower-cased command.  (The two `'SELECT ...' in cmd` tests are
transcribed as in the source; they compare upper-case needles against the
lower-cased command.) -/
def generate_simulated_output (command : RunbookCommand) : String :=
  let cmd := lowered command.command
  if containsSub ("kubectl get pods".toList) cmd then
    "NAME                          READY   STATUS    RESTARTS   AGE\napi-service-7d4b8f9c6-abc12   1/1     Running   0          5m\napi-service-7d4b8f9c6-def34   1/1     Running   0          5m\napi-service-7d4b8f9c6-ghi56   1/1     Running   0          5m"
  else if containsSub ("kubectl describe pod".toList) cmd then
    "Name:         api-service-7d4b8f9c6-abc12\nNamespace:    production\nStatus:       Running\nIP:           10.244.0.15\nContainers:\n  api:\n    Image:          api-service:v3.2.1\n    State:          Running\n      Started:      2026-01-30 10:15:30\nEvents:           <none>"
  else if containsSub ("kubectl logs".toList) cmd then
    "2026-01-30 10:20:15 INFO Starting API server on port 8000\n2026-01-30 10:20:16 INFO Connected to database: postgresql://...\n2026-01-30 10:20:17 INFO Health check endpoint ready\n2026-01-30 10:20:18 INFO Server ready to accept requests"
  else if containsSub ("kubectl rollout undo".toList) cmd then
    "deployment.apps/api-service rolled back"
  else if containsSub ("kubectl scale".toList) cmd then
    "deployment.apps/api-service scaled"
  else if containsSub ("kubectl patch".toList) cmd then
    "configmap/api-config patched"
  else if containsSub ("docker ps".toList) cmd then
    "CONTAINER ID   IMAGE               STATUS         PORTS\na1b2c3d4e5f6   api-service:latest  Up 2 hours     0.0.0.0:8000->8000/tcp"
  else if containsSub ("docker logs".toList) cmd then
    "[2026-01-30 10:15:00] INFO: Starting container\n[2026-01-30 10:15:01] INFO: Application ready"
  else if containsSub ("psql".toList) cmd && containsSub ("SELECT count".toList) cmd then
    if containsSub ("pg_stat_activity".toList) cmd then
      " count\n-------\n    45\n(1 row)"
    else
      " count\n-------\n  1234\n(1 row)"
  else if containsSub ("psql".toList) cmd && containsSub ("SELECT".toList) cmd then
    " id | status | created_at\n----+--------+------------\n  1 | active | 2026-01-30\n(1 row)"
  else if containsSub ("systemctl status".toList) cmd then
    "● api-service.service - API Service\n   Loaded: loaded (/lib/systemd/system/api-service.service; enabled)\n   Active: active (running) since Wed 2026-01-30 10:00:00 UTC; 2h ago"
  else if containsSub ("systemctl restart".toList) cmd then
    "Service restarted successfully"
  else if containsSub ("ps aux".toList) cmd then
    "USER       PID %CPU %MEM    VSZ   RSS TTY      STAT START   TIME COMMAND\nwww-data  1234  2.5 15.3 987654 654321 ?     Ssl  10:00   0:45 /usr/bin/python3 app.py"
  else if containsSub ("ping".toList) cmd then
    "PING api.example.com (1.2.3.4) 56(84) bytes of data.\n64 bytes from 1.2.3.4: icmp_seq=1 ttl=64 time=0.5 ms\n--- api.example.com ping statistics ---\n1 packets transmitted, 1 received, 0% packet loss"
  else if containsSub ("curl".toList) cmd then
    if containsSub ("health".toList) cmd then
      "\x7b\"status\": \"healthy\", \"version\": \"3.2.1\"\x7d"
    else
      "\x7b\"success\": true\x7d"
  else if containsSub ("dig".toList) cmd then
    "api.example.com.  300  IN  A  1.2.3.4"
  else
    match command.expected_output with
    | some s => if s = "" then
        "Command executed successfully:\n" ++ command.command ++ "\n\n[Simulated output for demo]"
      else s
    | none =>
        "Command executed successfully:\n" ++ command.command ++ "\n\n[Simulated output for demo]"

/-- `execute_command(command, dry_run, executed_by)`.  `startT`/`endT` model the
two `datetime.utcnow()` readings taken at entry and before building the result. -/
def execute_command (command : RunbookCommand) (dry_run : Bool) (executed_by : String)
    (startT endT : Int) : ExecutionResult :=
  let v := validate_command_safety command.command
  if v.1 = false then
    { step_number := 0, command_index := 0, command := command.command, success := false,
      output := "", error := some ("Command blocked for safety: " ++ v.2.2),
      executed_at := endT, executed_by := executed_by, dry_run := dry_run,
      duration_seconds := 0 }
  else if dry_run then
    { step_number := 0, command_index := 0, command := command.command, success := true,
      output := generate_simulated_output command, error := none,
      executed_at := startT, executed_by := executed_by, dry_run := true,
      duration_seconds := endT - startT }
  else
    -- Actual execution is disabled: the non-dry-run request is downgraded to the
    -- same simulation with a demo-mode prefix and reported with dry_run := true.
    { step_number := 0, command_index := 0, command := command.command, success := true,
      output := "[DEMO MODE] Command would execute:\n" ++ generate_simulated_output command,
      error := none, executed_at := startT, executed_by := executed_by, dry_run := true,
      duration_seconds := endT - startT }

/-- Blocking reason text built by the first branch of `validate_command_safety`. -/
def dangerReason (pat : String) : String :=
  "Command matches dangerous pattern: " ++ pat ++ ". This command is blocked for safety."


/-! ## Runbook validator (`RunbookGenerator.validate_runbook`) -/

/-- Blocking issues contributed by one command: the unsafe-classification issue and
the empty-command issue, in the order the source appends them. -/
def commandIssues (step_number : Int) (cmd_idx : Nat) (command : RunbookCommand) : List String :=
  (if (validate_command_safety command.command).1 = false then
    ["Step " ++ toString step_number ++ ", Command " ++ toString (cmd_idx + 1) ++ ": " ++
      (validate_command_safety command.command).2.2]
  else []) ++
  (if pyStrip command.command.toList = [] then
    ["Step " ++ toString step_number ++ ": Empty command found"]
  else [])

/-- Issues of a command list, with `enumerate`-style indices starting at `i`. -/
def issuesFrom (step_number : Int) : Nat → List RunbookCommand → List String
  | _, [] => []
  | i, c :: cs => commandIssues step_number i c ++ issuesFrom step_number (i + 1) cs

/-- Advisory warning for a high-risk command whose `requires_approval` flag is off
(`risk_level` here is the classifier output, as in the source). -/
def commandWarnings (step_number : Int) (command : RunbookCommand) : List String :=
  if (validate_command_safety command.command).2.1 = "high" ∧ command.requires_approval = false then
    ["Step " ++ toString step_number ++ ": High-risk command should require approval"]
  else []

/-- `dangerous_commands` entry for a blocked command. -/
def commandDanger (step_number : Int) (command : RunbookCommand) : List DangerousEntry :=
  if (validate_command_safety command.command).1 = false then
    [{ step := step_number, command := command.command,
       reason := (validate_command_safety command.command).2.2 }]
  else []

/-- Prerequisite-consistency warnings for one step. -/
def prereqWarnings (step_numbers : List Int) (step : RunbookStep) : List String :=
  step.prerequisite_steps.flatMap (fun prereq =>
    if step_numbers.contains prereq = false then
      ["Step " ++ toString step.step_number ++ " references non-existent prerequisite step "
        ++ toString prereq]
    else if prereq ≥ step.step_number then
      ["Step " ++ toString step.step_number ++ " has invalid prerequisite " ++ toString prereq
        ++ " (prerequisite must come before current step)"]
    else [])

/-- `RunbookGenerator.validate_runbook`.  The source builds the four lists in two
passes of nested loops; the comprehensions below produce the same lists in the
same order. -/
def validate_runbook (runbook : Runbook) : RunbookValidationResult :=
  let issues := runbook.steps.flatMap (fun step => issuesFrom step.step_number 0 step.commands)
  let commandWs := runbook.steps.flatMap (fun step =>
    step.commands.flatMap (commandWarnings step.step_number))
  let dangerous := runbook.steps.flatMap (fun step =>
    step.commands.flatMap (commandDanger step.step_number))
  let step_numbers := runbook.steps.map (fun step => step.step_number)
  let prereqWs := runbook.steps.flatMap (prereqWarnings step_numbers)
  { is_valid := issues.isEmpty, issues := issues, warnings := commandWs ++ prereqWs,
    dangerous_commands := dangerous }

/-! ## Duration parsing (`RunbookGenerator._calculate_total_time`) -/

/-- Value of Python `re.search(r'(\d+)\s*<unit>', text)` anchored at one position:
a nonempty digit run, optional whitespace, then the unit literal. -/
def unitMatchAt (unit : List Char) (cs : List Char) : Option Nat :=
  let ds := cs.takeWhile Char.isDigit
  if ds = [] then none
  else if unit.isPrefixOf ((cs.drop ds.length).dropWhile isPySpace) then
    some (ds.foldl (fun acc c => 10 * acc + (c.toNat - 48)) 0)
  else none

/-- Leftmost match of `(\d+)\s*<unit>`, scanning positions left to right. -/
def findUnit (unit : List Char) : List Char → Option Nat
  | [] => unitMatchAt unit []
  | c :: cs =>
    match unitMatchAt unit (c :: cs) with
    | some n => some n
    | none => findUnit unit cs

/-- Seconds (sixtieths of a minute) contributed by one step's free-text duration
hint; Python's float `seconds / 60` accumulation is modelled exactly in units of
1/60 minute. -/
def durationSixtieths (estimated_duration : String) : Nat :=
  let duration := lowered estimated_duration
  if containsSub ("second".toList) duration then
    match findUnit ("second".toList) duration with
    | some seconds => seconds
    | none => 0
  else if containsSub ("minute".toList) duration then
    match findUnit ("minute".toList) duration with
    | some minutes => 60 * minutes
    | none => 0
  else if containsSub ("hour".toList) duration then
    match findUnit ("hour".toList) duration with
    | some hours => 3600 * hours
    | none => 0
  else 0

/-- Python `int(round(x))` (round half to even) applied to `n/60` minutes. -/
def pyRoundSixtieths (n : Nat) : Nat :=
  let q := n / 60
  let r := n % 60
  if r < 30 then q
  else if 30 < r then q + 1
  else if q % 2 = 0 then q else q + 1

/-- `_calculate_total_time`: sum the parsed hints, round, render. -/
def calculate_total_time (steps : List RunbookStep) : String :=
  let total_minutes := pyRoundSixtieths
    (steps.foldl (fun acc step => acc + durationSixtieths step.estimated_duration) 0)
  if total_minutes < 60 then
    toString total_minutes ++ " minutes"
  else
    let hours := total_minutes / 60
    let minutes := total_minutes % 60
    if minutes > 0 then
      toString hours ++ " hour" ++ (if hours ≠ 1 then "s" else "") ++ " "
        ++ toString minutes ++ " minutes"
    else
      toString hours ++ " hour" ++ (if hours ≠ 1 then "s" else "")

/-- The spec's rendering of a rounded total minute count: "M minutes" under an
hour, otherwise "H hour(s)" with " M minutes" appended when the remainder is
nonzero. -/
def renderDuration (m : Nat) : String :=
  if m < 60 then toString m ++ " minutes"
  else
    (toString (m / 60) ++ (if m / 60 = 1 then " hour" else " hours")) ++
      (if m % 60 = 0 then "" else " " ++ toString (m % 60) ++ " minutes")

/-! ## Runbook construction (`RunbookGenerator._construct_runbook`)

Raw generated payloads are modelled with one `Option` per dict key; `none` is a
missing key. -/

structure RawCommand where
  command : Option String
  description : Option String
  risk_level : Option String
  expected_output : Option String
  timeout_seconds : Option Nat
  requires_approval : Option Bool
deriving DecidableEq

structure RawStep where
  step_number : Option Int
  category : Option String
  title : Option String
  commands : Option (List RawCommand)
  prerequisite_steps : Option (List Int)
  estimated_duration : Option String
deriving DecidableEq

structure RawRunbook where
  steps : Option (List RawStep)
  warnings : Option (List String)
  prerequisites : Option (List String)
deriving DecidableEq

def buildCommand (cmd : RawCommand) : RunbookCommand :=
  { command := cmd.command.getD "", description := cmd.description.getD "",
    risk_level := cmd.risk_level.getD "medium", expected_output := cmd.expected_output,
    timeout_seconds := cmd.timeout_seconds.getD 30,
    requires_approval := cmd.requires_approval.getD true }

/-- One constructed step; `i` is the number of steps built so far (`len(steps)`). -/
def buildStep (i : Nat) (step_data : RawStep) : RunbookStep :=
  { step_number := step_data.step_number.getD (Int.ofNat (i + 1)),
    category := step_data.category.getD "remediation",
    title := step_data.title.getD ("Step " ++ toString (i + 1)),
    commands := (step_data.commands.getD []).map buildCommand,
    prerequisite_steps := step_data.prerequisite_steps.getD [],
    estimated_duration := step_data.estimated_duration.getD "1 minute" }

def buildSteps : Nat → List RawStep → List RunbookStep
  | _, [] => []
  | i, sd :: rest => buildStep i sd :: buildSteps (i + 1) rest

/-- `_construct_runbook`; `now` models `datetime.utcnow()`, and `ValueError` is
`Except.error` carrying the wrapped message. -/
def construct_runbook (incident_id incident_type severity : String)
    (runbook_data : RawRunbook) (max_steps : Nat) (now : Int) : Except String Runbook :=
  let steps_data := runbook_data.steps.getD []
  if steps_data.isEmpty then
    .error "Failed to construct runbook: No steps found in runbook data"
  else
    let steps := buildSteps 0 (steps_data.take max_steps)
    .ok { incident_id := incident_id, generated_at := now, incident_type := incident_type,
          severity := severity, steps := steps, total_steps := steps.length,
          estimated_total_time := calculate_total_time steps,
          warnings := runbook_data.warnings.getD [],
          prerequisites := runbook_data.prerequisites.getD [] }

/-! ## API layer (`app/api/runbooks.py`) -/

/-- `HTTPException`: status code and detail. -/
structure HTTPError where
  status_code : Nat
  detail : String
deriving DecidableEq

def CACHE_TTL_MINUTES : Int := 60

/-- The module-level mutable state: `runbooks_cache` and `execution_history`,
dicts keyed by incident id, modelled as association lists. -/
structure ApiState where
  runbooks_cache : List (String × Runbook)
  execution_history : List (String × List ExecutionResult)
deriving DecidableEq

def alistGet {α : Type} (k : String) (l : List (String × α)) : Option α :=
  (l.find? (fun p => p.1 == k)).map (fun p => p.2)

def alistDel {α : Type} (k : String) (l : List (String × α)) : List (String × α) :=
  l.filter (fun p => p.1 != k)

def alistSet {α : Type} (k : String) (v : α) (l : List (String × α)) : List (String × α) :=
  (k, v) :: alistDel k l

/-- `get_runbook_from_cache`: TTL check on read with eager deletion of expired
entries.  `now` is the current time in minutes. -/
def get_runbook_from_cache (now : Int) (incident_id : String) (st : ApiState) :
    Option Runbook × ApiState :=
  match alistGet incident_id st.runbooks_cache with
  | none => (none, st)
  | some runbook =>
    if now - runbook.generated_at > CACHE_TTL_MINUTES then
      (none, { st with runbooks_cache := alistDel incident_id st.runbooks_cache })
    else
      (some runbook, st)

/-- Response shape of the history endpoint; the three counts are absent when the
incident has no recorded history. -/
structure HistoryResponse where
  incident_id : String
  executions_count : Nat
  history : List ExecutionResult
  successful_count : Option Nat
  failed_count : Option Nat
  dry_run_count : Option Nat
deriving DecidableEq

def get_execution_history (incident_id : String) (st : ApiState) : HistoryResponse :=
  match alistGet incident_id st.execution_history with
  | none =>
    { incident_id := incident_id, executions_count := 0, history := [],
      successful_count := none, failed_count := none, dry_run_count := none }
  | some history =>
    { incident_id := incident_id, executions_count := history.length, history := history,
      successful_count := some (history.countP (fun h => h.success)),
      failed_count := some (history.countP (fun h => !h.success)),
      dry_run_count := some (history.countP (fun h => h.dry_run)) }

structure ClearResponse where
  success : Bool
  incident_id : String
  message : String
deriving DecidableEq

/-- `clear_runbook_cache` (the DELETE endpoint): removes the cached runbook and its
execution history together. -/
def clear_runbook_cache (incident_id : String) (st : ApiState) :
    Except HTTPError ClearResponse × ApiState :=
  match alistGet incident_id st.runbooks_cache with
  | none =>
    (.error { status_code := 404,
              detail := "No cached runbook found for incident " ++ incident_id }, st)
  | some _ =>
    let st1 := { st with runbooks_cache := alistDel incident_id st.runbooks_cache }
    let st2 :=
      match alistGet incident_id st1.execution_history with
      | none => st1
      | some _ => { st1 with execution_history := alistDel incident_id st1.execution_history }
    (.ok { success := true, incident_id := incident_id,
           message := "Runbook cache cleared successfully" }, st2)

/-- `execute_runbook_step` (the execute-step endpoint); `now` models the wall
clock, used for the TTL check and the execution timestamps. -/
def execute_runbook_step (now : Int) (incident_id : String)
    (request : RunbookExecuteRequest) (st : ApiState) :
    Except HTTPError ExecutionResult × ApiState :=
  match get_runbook_from_cache now incident_id st with
  | (none, st1) =>
    (.error { status_code := 404,
              detail := "No runbook found for incident " ++ incident_id }, st1)
  | (some runbook, st1) =>
    match runbook.steps.find? (fun s => s.step_number == request.step_number) with
    | none =>
      (.error { status_code := 404,
                detail := "Step " ++ toString request.step_number
                  ++ " not found in runbook" }, st1)
    | some step =>
      if request.command_index ≥ (step.commands.length : Int) then
        (.error { status_code := 400,
                  detail := "Command index " ++ toString request.command_index
                    ++ " out of range" }, st1)
      else
        -- Python list indexing: a negative index counts from the end; an index
        -- below -len raises IndexError, caught by the generic handler as a 500.
        let pyIdx : Int :=
          if request.command_index < 0 then
            (step.commands.length : Int) + request.command_index
          else request.command_index
        match step.commands.get? pyIdx.toNat with
        | none =>
          (.error { status_code := 500,
                    detail := "Failed to execute step: list index out of range" }, st1)
        | some command =>
          if pyIdx < 0 then
            (.error { status_code := 500,
                      detail := "Failed to execute step: list index out of range" }, st1)
          else if command.risk_level = "high" ∧ request.dry_run = false
              ∧ request.confirmation_text ≠ some "EXECUTE" then
            (.error { status_code := 400,
                      detail := "High-risk command requires confirmation text \x27EXECUTE\x27" },
             st1)
          else
            let result0 := execute_command command request.dry_run request.executed_by now now
            let result := { result0 with
              step_number := request.step_number,
              command_index := request.command_index }
            let prev := (alistGet incident_id st1.execution_history).getD []
            (.ok result,
             { st1 with
               execution_history := alistSet incident_id (prev ++ [result])
                 st1.execution_history })

/-! ## Concrete example data (used by witnesses) -/

def exampleHighCmd : RunbookCommand :=
  ⟨"kubectl delete namespace prod", "remove namespace", "high", none, 30, false⟩

def exampleSafeCmd : RunbookCommand :=
  ⟨"kubectl get pods", "list pods", "safe", none, 30, true⟩

def exampleStep : RunbookStep :=
  ⟨1, "remediation", "fix", [exampleHighCmd, exampleSafeCmd], [], "2 minutes"⟩

def exampleRunbook : Runbook :=
  ⟨"INC-2", 0, "db", "P1", [exampleStep], 1, "2 minutes", [], []⟩

def exampleResult : ExecutionResult :=
  ⟨1, 0, "kubectl get pods", true, "ok", none, 0, "user", true, 0⟩

def exampleState : ApiState := ⟨[("INC-2", exampleRunbook)], []⟩

def exampleHistState : ApiState :=
  ⟨[("INC-2", exampleRunbook)], [("INC-2", [exampleResult])]⟩


/-! # Theorems -/

/-! ## Regex engine lemmas -/

namespace RE

theorem existsPrefix_of_nullable {r : RE} (h : nullable r = true) :
    ∀ s : List Char, existsPrefix r s = true := by
  intro s
  cases s with
  | nil => simpa [existsPrefix] using h
  | cons c cs => simp [existsPrefix, h]

theorem existsPrefix_append {s : List Char} :
    ∀ {r : RE}, existsPrefix r s = true → ∀ t : List Char, existsPrefix r (s ++ t) = true := by
  induction s with
  | nil =>
    intro r h t
    exact existsPrefix_of_nullable (by simpa [existsPrefix] using h) t
  | cons c cs ih =>
    intro r h t
    simp only [existsPrefix, Bool.or_eq_true] at h
    rcases h with h | h
    · simp [existsPrefix, h]
    · simp [existsPrefix, ih h t]

theorem search_of_nullable {r : RE} (h : nullable r = true) :
    ∀ s : List Char, search r s = true := by
  intro s
  cases s with
  | nil => simpa [search] using h
  | cons c cs => simp [search, existsPrefix, h]

/-- `re.search` is monotone under extending the text on the right. -/
theorem search_append_right {s : List Char} :
    ∀ {r : RE}, search r s = true → ∀ t : List Char, search r (s ++ t) = true := by
  induction s with
  | nil =>
    intro r h t
    exact search_of_nullable (by simpa [search] using h) t
  | cons c cs ih =>
    intro r h t
    simp only [search, Bool.or_eq_true] at h
    rcases h with h | h
    · have := existsPrefix_append h t
      simp only [List.cons_append] at this ⊢
      simp [search, this]
    · simp [search, ih h t]

/-- `re.search` is monotone under extending the text on the left. -/
theorem search_append_left {r : RE} {s : List Char} (h : search r s = true) :
    ∀ t : List Char, search r (t ++ s) = true := by
  intro t
  induction t with
  | nil => simpa using h
  | cons c cs ih => simp [search, ih]

/-- `re.search` is monotone under embedding the text in any context. -/
theorem search_infix {r : RE} {s : List Char} (h : search r s = true)
    (pre post : List Char) : search r (pre ++ s ++ post) = true := by
  rw [List.append_assoc]
  exact search_append_left (search_append_right h post) pre

end RE

/-! ## Classifier theorems -/

theorem classifyLow_blocked {low : List Char}
    (hb : ∃ p ∈ DANGEROUS_PATTERNS, RE.search p.1 low = true) :
    (classifyLow low).1 = false ∧ (classifyLow low).2.1 = "high" ∧
      ∃ p ∈ DANGEROUS_PATTERNS, RE.search p.1 low = true ∧
        (classifyLow low).2.2 = dangerReason p.2 := by
  have hfind : (DANGEROUS_PATTERNS.find? (fun p => RE.search p.1 low)).isSome := by
    rw [List.find?_isSome]
    obtain ⟨p, hp, hm⟩ := hb
    exact ⟨p, hp, hm⟩
  obtain ⟨q, hq⟩ := Option.isSome_iff_exists.mp hfind
  have hqmem : q ∈ DANGEROUS_PATTERNS := List.mem_of_find?_eq_some hq
  have hqmatch : RE.search q.1 low = true := by
    simpa using List.find?_some hq
  refine ⟨?_, ?_, q, hqmem, hqmatch, ?_⟩ <;>
    simp [classifyLow, hq, dangerReason]

/-- Claim C4: a command matching any blocklist pattern classifies as
(not allowed, "high", reason naming a matched rule); the blocked outcome is stable
under surrounding whitespace and under re-casing (any string with the same
lower-cased text classifies identically), and a simultaneous safe-prefix match
cannot override the block. -/
theorem classify_blocklist (cmd : String)
    (hb : ∃ p ∈ DANGEROUS_PATTERNS, RE.search p.1 (lowered cmd) = true) :
    ((validate_command_safety cmd).1 = false ∧ (validate_command_safety cmd).2.1 = "high" ∧
      ∃ p ∈ DANGEROUS_PATTERNS, RE.search p.1 (lowered cmd) = true ∧
        (validate_command_safety cmd).2.2 = dangerReason p.2) ∧
    (∀ pre post : String, pre.toList.all isPySpace = true → post.toList.all isPySpace = true →
      (validate_command_safety (pre ++ cmd ++ post)).1 = false ∧
      (validate_command_safety (pre ++ cmd ++ post)).2.1 = "high" ∧
      ∃ p ∈ DANGEROUS_PATTERNS, RE.search p.1 (lowered (pre ++ cmd ++ post)) = true ∧
        (validate_command_safety (pre ++ cmd ++ post)).2.2 = dangerReason p.2) ∧
    (∀ cmd' : String, lowered cmd' = lowered cmd →
      validate_command_safety cmd' = validate_command_safety cmd) ∧
    (SAFE_COMMANDS.any (fun s => List.isPrefixOf (s.toList.map lowerChar) (pyStrip (lowered cmd))) = true →
      (validate_command_safety cmd).1 = false) := by
  obtain ⟨p, hp, hm⟩ := hb
  have hmain := classifyLow_blocked ⟨p, hp, hm⟩
  refine ⟨hmain, ?_, ?_, ?_⟩
  · intro pre post _ _
    have hsplit : lowered (pre ++ cmd ++ post) =
        lowered pre ++ lowered cmd ++ lowered post := by
      simp [lowered, String.data_append, String.toList]
    have hm' : RE.search p.1 (lowered (pre ++ cmd ++ post)) = true := by
      rw [hsplit]
      exact RE.search_infix hm (lowered pre) (lowered post)
    exact classifyLow_blocked ⟨p, hp, hm'⟩
  · intro cmd' h
    show classifyLow (lowered cmd') = classifyLow (lowered cmd)
    rw [h]
  · intro _
    exact hmain.1

/-- Claim C4 witness: `"rm -rf /"` matches the blocklist and is classified as blocked. -/
theorem classify_blocklist_example :
    (∃ p ∈ DANGEROUS_PATTERNS, RE.search p.1 (lowered "rm -rf /") = true) ∧
    (validate_command_safety "rm -rf /").1 = false :=
  ⟨by decide, (classify_blocklist "rm -rf /" (by decide)).1.1⟩

/-- Claim C2 counterexample: `"kubectl delete namespace prod"` does not classify as
risk "high" — the medium-risk pattern `kubectl delete` matches first, so the
classifier returns (allowed, "medium", approval reason). -/
theorem kubectl_delete_namespace_is_medium :
    (validate_command_safety "kubectl delete namespace prod").2.1 ≠ "high" ∧
    validate_command_safety "kubectl delete namespace prod" =
      (true, "medium", "Command modifies system state. Requires approval.") := by
  constructor
  · decide
  · decide

/-- Claim C2 (amended): the classifier maps `"rm -rf /"` to (false, "high", reason
naming the dangerous pattern), `"kubectl get pods"` to (true, "safe", ...),
`"kubectl rollout restart deployment/api"` to (true, "medium", ...), and
`"kubectl delete namespace prod"` to (true, "medium", ...) — not "high", because the
medium-risk pattern `kubectl delete` is tested before the high-risk list. -/
theorem classifier_examples :
    validate_command_safety "rm -rf /" =
      (false, "high", dangerReason "rm\\s+-rf\\s+/") ∧
    validate_command_safety "kubectl get pods" =
      (true, "safe", "Command is read-only and considered safe") ∧
    validate_command_safety "kubectl rollout restart deployment/api" =
      (true, "medium", "Command modifies system state. Requires approval.") ∧
    validate_command_safety "kubectl delete namespace prod" =
      (true, "medium", "Command modifies system state. Requires approval.") := by
  refine ⟨by decide, by decide, by decide, by decide⟩

/-! ## Execution controller theorems -/

/-- Claim C3 counterexample: a blocked command requested with `dry_run=false`
produces a result with `dry_run=false`, so not every execution result has
`dry_run=true` — the blocked branch echoes the caller's flag. -/
theorem execute_blocked_echoes_dry_run :
    (execute_command ⟨"rm -rf /", "delete", "high", none, 30, true⟩ false "system" 0 0).dry_run
      = false := by
  decide

/-- Claim C3 (amended): for a command the classifier allows, the execution result
always has `dry_run=true` — in particular a "live" (`dry_run=false`) request runs
the same simulation with a preview-marking prefix on the output; a command the
classifier blocks yields a failed result whose `dry_run` flag echoes the request. -/
theorem execute_command_dry_run_policy (command : RunbookCommand) (dry_run : Bool)
    (executed_by : String) (startT endT : Int) :
    ((validate_command_safety command.command).1 = true →
      (execute_command command dry_run executed_by startT endT).dry_run = true) ∧
    ((validate_command_safety command.command).1 = true → dry_run = false →
      (execute_command command dry_run executed_by startT endT).output =
        "[DEMO MODE] Command would execute:\n" ++ generate_simulated_output command) ∧
    ((validate_command_safety command.command).1 = false →
      (execute_command command dry_run executed_by startT endT).dry_run = dry_run ∧
      (execute_command command dry_run executed_by startT endT).success = false) := by
  refine ⟨?_, ?_, ?_⟩
  · intro h
    cases hd : dry_run <;> simp [execute_command, h, hd]
  · intro h hd
    simp [execute_command, h, hd]
  · intro h
    simp [execute_command, h]

/-- Claim C3 witness: a safe command requested live still reports `dry_run=true`
with the demo-mode prefix. -/
theorem execute_command_dry_run_policy_example :
    (validate_command_safety "kubectl get pods").1 = true ∧
    (execute_command ⟨"kubectl get pods", "list pods", "safe", none, 30, true⟩
        false "user" 0 1).dry_run = true :=
  ⟨by decide,
   (execute_command_dry_run_policy ⟨"kubectl get pods", "list pods", "safe", none, 30, true⟩
      false "user" 0 1).1 (by decide)⟩

/-! ## Validator theorems -/

theorem issuesFrom_ne_nil :
    ∀ {cs : List RunbookCommand} {cmd : RunbookCommand}, cmd ∈ cs →
      (validate_command_safety cmd.command).1 = false →
      ∀ (n : Int) (i : Nat), issuesFrom n i cs ≠ [] := by
  intro cs
  induction cs with
  | nil => intro cmd h; cases h
  | cons c rest ih =>
    intro cmd hmem hbad n i
    rcases List.mem_cons.mp hmem with h | h
    · subst h
      simp [issuesFrom, commandIssues, hbad]
    · intro hcontra
      rcases List.append_eq_nil.mp hcontra with ⟨_, h2⟩
      exact ih h hbad n (i + 1) h2

/-- Claim C1: a runbook containing a classifier-blocked command is never valid, the
blocked command is recorded in `dangerous_commands` tagged with its step number,
and validity is exactly emptiness of the blocking-issue list (warnings never
affect it). -/
theorem validate_runbook_blocking (rb : Runbook) :
    ((validate_runbook rb).is_valid = true ↔ (validate_runbook rb).issues = []) ∧
    (∀ step ∈ rb.steps, ∀ cmd ∈ step.commands,
      (validate_command_safety cmd.command).1 = false →
        (validate_runbook rb).is_valid = false ∧
        ∃ d ∈ (validate_runbook rb).dangerous_commands,
          d.step = step.step_number ∧ d.command = cmd.command ∧
          d.reason = (validate_command_safety cmd.command).2.2) := by
  constructor
  · simp [validate_runbook, List.isEmpty_iff]
  · intro step hstep cmd hcmd hbad
    constructor
    · have hne : issuesFrom step.step_number 0 step.commands ≠ [] :=
        issuesFrom_ne_nil hcmd hbad step.step_number 0
      obtain ⟨e, he⟩ := List.exists_mem_of_ne_nil _ hne
      have hmem : e ∈ rb.steps.flatMap (fun s => issuesFrom s.step_number 0 s.commands) :=
        List.mem_flatMap.mpr ⟨step, hstep, he⟩
      have hissues : rb.steps.flatMap (fun s => issuesFrom s.step_number 0 s.commands) ≠ [] :=
        List.ne_nil_of_mem hmem
      simp [validate_runbook, List.isEmpty_eq_false, hissues]
    · refine ⟨⟨step.step_number, cmd.command, (validate_command_safety cmd.command).2.2⟩,
        ?_, rfl, rfl, rfl⟩
      show _ ∈ (validate_runbook rb).dangerous_commands
      simp only [validate_runbook]
      exact List.mem_flatMap.mpr ⟨step, hstep,
        List.mem_flatMap.mpr ⟨cmd, hcmd, by simp [commandDanger, hbad]⟩⟩

/-- Claim C1 witness: a one-step runbook whose only command is `"rm -rf /"` is
invalid and that command is recorded in `dangerous_commands` for step 1. -/
theorem validate_runbook_blocking_example :
    (validate_runbook ⟨"INC-1", 0, "db", "P1",
        [⟨1, "remediation", "fix", [⟨"rm -rf /", "wipe", "high", none, 30, true⟩], [],
          "1 minute"⟩], 1, "1 minutes", [], []⟩).is_valid = false ∧
    ∃ d ∈ (validate_runbook ⟨"INC-1", 0, "db", "P1",
        [⟨1, "remediation", "fix", [⟨"rm -rf /", "wipe", "high", none, 30, true⟩], [],
          "1 minute"⟩], 1, "1 minutes", [], []⟩).dangerous_commands,
      d.step = 1 ∧ d.command = "rm -rf /" ∧
      d.reason = (validate_command_safety "rm -rf /").2.2 :=
  (validate_runbook_blocking _).2
    ⟨1, "remediation", "fix", [⟨"rm -rf /", "wipe", "high", none, 30, true⟩], [], "1 minute"⟩
    (by simp)
    ⟨"rm -rf /", "wipe", "high", none, 30, true⟩
    (by simp)
    (by decide)

/-! ## Duration theorems -/

theorem foldl_add_eq_sum (f : RunbookStep → Nat) :
    ∀ (l : List RunbookStep) (a : Nat),
      l.foldl (fun acc s => acc + f s) a = a + (l.map f).sum := by
  intro l
  induction l with
  | nil => intro a; simp
  | cons s rest ih =>
    intro a
    simp only [List.foldl_cons, List.map_cons, List.sum_cons, ih]
    omega

/-- Claim C7: the total estimated time is the per-step parsed durations
(seconds/minutes/hours, case-insensitive, leftmost numeric match per hint,
unparseable hints contributing zero) summed, rounded to whole minutes, and
rendered as "M minutes" under an hour and "H hour(s) [M minutes]" otherwise,
with the minutes part omitted when zero. -/
theorem calculate_total_time_spec (steps : List RunbookStep) :
    calculate_total_time steps =
      renderDuration (pyRoundSixtieths
        ((steps.map (fun s => durationSixtieths s.estimated_duration)).sum)) := by
  have hsum := foldl_add_eq_sum (fun s => durationSixtieths s.estimated_duration) steps 0
  simp only [calculate_total_time, hsum, Nat.zero_add]
  generalize pyRoundSixtieths ((steps.map (fun s => durationSixtieths s.estimated_duration)).sum) = m
  have hs : ∀ a : String, (a ++ " hour") ++ "s" = a ++ " hours" := by
    intro a
    rw [String.append_assoc]
    congr 1
  by_cases h1 : m < 60
  · simp [renderDuration, h1]
  · simp only [renderDuration, if_neg h1]
    by_cases h2 : m % 60 = 0
    · have h2' : ¬ m % 60 > 0 := by omega
      simp only [if_neg h2', if_pos h2, String.append_empty]
      by_cases h3 : m / 60 = 1
      · simp [h3]
      · simp only [if_pos (by exact h3 : m / 60 ≠ 1), if_neg h3]
        exact hs _
    · have h2' : m % 60 > 0 := by omega
      simp only [if_pos h2', if_neg h2]
      by_cases h3 : m / 60 = 1
      · simp only [h3, String.append_assoc]
        congr 1
      · simp only [if_pos (by exact h3 : m / 60 ≠ 1), if_neg h3]
        rw [hs]
        simp only [String.append_assoc]

/-! ## Construction theorems -/

theorem buildSteps_length : ∀ (i : Nat) (l : List RawStep), (buildSteps i l).length = l.length := by
  intro i l
  induction l generalizing i with
  | nil => rfl
  | cons sd rest ih => simp [buildSteps, ih]

theorem buildSteps_get? :
    ∀ (l : List RawStep) (i k : Nat),
      (buildSteps i l).get? k = (l.get? k).map (buildStep (i + k)) := by
  intro l
  induction l with
  | nil => intro i k; simp [buildSteps]
  | cons sd rest ih =>
    intro i k
    cases k with
    | zero => simp [buildSteps]
    | succ k' =>
      have harith : i + (k' + 1) = (i + 1) + k' := by omega
      simp only [buildSteps, List.get?_cons_succ, ih (i + 1) k', harith]

/-- Claim C6 counterexample: a payload whose single step has no commands list does
not fail construction — it produces a runbook whose step has an empty command
list (with all defaulted fields). -/
theorem construct_runbook_missing_commands_ok :
    construct_runbook "INC-1" "db" "P1"
        ⟨some [⟨none, none, none, none, none, none⟩], none, none⟩ 10 0 =
      .ok ⟨"INC-1", 0, "db", "P1", [⟨1, "remediation", "Step 1", [], [], "1 minute"⟩], 1,
        "1 minutes", [], []⟩ := by
  rfl

/-- Claim C6 (amended): construction fails only when the steps array is missing or
empty; a step missing its commands list is constructed with an empty commands
list; the constructed step count never exceeds `max_steps` (excess steps are
truncated). -/
theorem construct_runbook_caps_steps (incident_id incident_type severity : String)
    (runbook_data : RawRunbook) (max_steps : Nat) (now : Int) :
    ((runbook_data.steps.getD []).isEmpty = true →
      construct_runbook incident_id incident_type severity runbook_data max_steps now =
        .error "Failed to construct runbook: No steps found in runbook data") ∧
    ((runbook_data.steps.getD []).isEmpty = false →
      ∃ rb, construct_runbook incident_id incident_type severity runbook_data max_steps now =
          .ok rb ∧
        rb.steps.length ≤ max_steps ∧ rb.total_steps = rb.steps.length ∧
        (∀ i sd, ((runbook_data.steps.getD []).take max_steps).get? i = some sd →
          sd.commands = none →
          ∃ st, rb.steps.get? i = some st ∧ st.commands = [])) := by
  constructor
  · intro h
    simp [construct_runbook, h]
  · intro h
    refine ⟨⟨incident_id, now, incident_type, severity,
        buildSteps 0 ((runbook_data.steps.getD []).take max_steps),
        (buildSteps 0 ((runbook_data.steps.getD []).take max_steps)).length,
        calculate_total_time (buildSteps 0 ((runbook_data.steps.getD []).take max_steps)),
        runbook_data.warnings.getD [], runbook_data.prerequisites.getD []⟩,
      ?_, ?_, rfl, ?_⟩
    · simp [construct_runbook, h]
    · rw [buildSteps_length, List.length_take]
      exact Nat.min_le_left _ _
    · intro i sd hget hnone
      refine ⟨buildStep i sd, ?_, ?_⟩
      · rw [buildSteps_get?, hget]
        simp
      · simp [buildStep, hnone]

/-- Claim C6 witness: with two raw steps and `max_steps = 1`, construction succeeds
and keeps a single step; its step missing a commands list yields empty commands. -/
theorem construct_runbook_caps_example :
    (((⟨some [⟨none, none, none, none, none, none⟩, ⟨none, none, none, none, none, none⟩],
        none, none⟩ : RawRunbook).steps.getD []).isEmpty = false) ∧
    ∃ rb, construct_runbook "INC-9" "db" "P2"
        ⟨some [⟨none, none, none, none, none, none⟩, ⟨none, none, none, none, none, none⟩],
          none, none⟩ 1 5 = .ok rb ∧
      rb.steps.length ≤ 1 ∧ rb.total_steps = rb.steps.length ∧
      (∀ i sd, ((((⟨some [⟨none, none, none, none, none, none⟩,
            ⟨none, none, none, none, none, none⟩], none, none⟩ : RawRunbook)).steps.getD
            []).take 1).get? i = some sd →
        sd.commands = none →
        ∃ st, rb.steps.get? i = some st ∧ st.commands = []) :=
  ⟨by decide,
   (construct_runbook_caps_steps "INC-9" "db" "P2"
      ⟨some [⟨none, none, none, none, none, none⟩, ⟨none, none, none, none, none, none⟩],
        none, none⟩ 1 5).2 (by decide)⟩

/-! ## Cache and API-layer theorems -/

theorem alistGet_del {α : Type} (k : String) (l : List (String × α)) :
    alistGet k (alistDel k l) = none := by
  induction l with
  | nil => rfl
  | cons p rest ih =>
    by_cases h : p.1 = k
    · simpa [alistDel, List.filter_cons, h] using ih
    · simp only [alistDel, List.filter_cons] at ih ⊢
      simp [alistGet, List.find?_cons, h, ih]

theorem get_runbook_frame (now : Int) (incident_id : String) (st : ApiState) :
    (get_runbook_from_cache now incident_id st).2.execution_history = st.execution_history := by
  cases h : alistGet incident_id st.runbooks_cache with
  | none => simp [get_runbook_from_cache, h]
  | some rb =>
    by_cases hexp : now - rb.generated_at > CACHE_TTL_MINUTES
    · simp [get_runbook_from_cache, h, hexp]
    · simp [get_runbook_from_cache, h, hexp]

theorem get_execution_history_congr (incident_id : String) {st st' : ApiState}
    (h : st.execution_history = st'.execution_history) :
    get_execution_history incident_id st = get_execution_history incident_id st' := by
  simp only [get_execution_history, h]

/-- Claim C8: a cached runbook read after more than the 60-minute TTL returns
absent and deletes the entry, so a subsequent read (at any time) also returns
absent; a read within the TTL returns the stored runbook with the cache
unchanged. -/
theorem cache_ttl_read (now now2 : Int) (incident_id : String) (st : ApiState)
    (rb : Runbook) (hget : alistGet incident_id st.runbooks_cache = some rb) :
    (now - rb.generated_at > CACHE_TTL_MINUTES →
      get_runbook_from_cache now incident_id st =
        (none, { st with runbooks_cache := alistDel incident_id st.runbooks_cache }) ∧
      get_runbook_from_cache now2 incident_id
          { st with runbooks_cache := alistDel incident_id st.runbooks_cache } =
        (none, { st with runbooks_cache := alistDel incident_id st.runbooks_cache })) ∧
    (¬ now - rb.generated_at > CACHE_TTL_MINUTES →
      get_runbook_from_cache now incident_id st = (some rb, st)) := by
  constructor
  · intro hexp
    constructor
    · simp [get_runbook_from_cache, hget, hexp]
    · simp [get_runbook_from_cache, alistGet_del]
  · intro hfresh
    simp [get_runbook_from_cache, hget, hfresh]

/-- Claim C8 witness: an entry generated at time 0 read at time 100 is expired and
deleted; read at time 30 it is returned unchanged. -/
theorem cache_ttl_read_example :
    ((100 : Int) - exampleRunbook.generated_at > CACHE_TTL_MINUTES ∧
      get_runbook_from_cache 100 "INC-2" exampleState =
        (none, { exampleState with
          runbooks_cache := alistDel "INC-2" exampleState.runbooks_cache })) ∧
    (¬ (30 : Int) - exampleRunbook.generated_at > CACHE_TTL_MINUTES ∧
      get_runbook_from_cache 30 "INC-2" exampleState = (some exampleRunbook, exampleState)) :=
  ⟨⟨by decide,
    ((cache_ttl_read 100 0 "INC-2" exampleState exampleRunbook (by decide)).1 (by decide)).1⟩,
   ⟨by decide,
    (cache_ttl_read 30 0 "INC-2" exampleState exampleRunbook (by decide)).2 (by decide)⟩⟩

/-- Claim C9: a cache read (including one that lazily expires and deletes the
runbook entry) never changes the execution history, and the history endpoint
returns the same response before and after such a read; only the explicit delete
operation removes the runbook and its history together. -/
theorem expiry_frame_on_history (now : Int) (incident_id : String) (st : ApiState) :
    ((get_runbook_from_cache now incident_id st).2.execution_history =
        st.execution_history ∧
      get_execution_history incident_id (get_runbook_from_cache now incident_id st).2 =
        get_execution_history incident_id st) ∧
    (∀ rb, alistGet incident_id st.runbooks_cache = some rb →
      alistGet incident_id (clear_runbook_cache incident_id st).2.runbooks_cache = none ∧
      alistGet incident_id (clear_runbook_cache incident_id st).2.execution_history = none) := by
  refine ⟨⟨get_runbook_frame now incident_id st,
    get_execution_history_congr incident_id (get_runbook_frame now incident_id st)⟩, ?_⟩
  intro rb hrb
  cases hh : alistGet incident_id st.execution_history with
  | none =>
    constructor
    · simpa [clear_runbook_cache, hrb, hh] using alistGet_del incident_id st.runbooks_cache
    · simp [clear_runbook_cache, hrb, hh]
  | some hist =>
    constructor
    · simpa [clear_runbook_cache, hrb, hh] using alistGet_del incident_id st.runbooks_cache
    · simpa [clear_runbook_cache, hrb, hh] using alistGet_del incident_id st.execution_history

/-- Claim C9 witness: expiring the runbook of an incident with recorded history
leaves the history response intact, and the explicit delete removes both. -/
theorem expiry_frame_on_history_example :
    (get_execution_history "INC-2" (get_runbook_from_cache 100 "INC-2" exampleHistState).2 =
      get_execution_history "INC-2" exampleHistState) ∧
    (alistGet "INC-2" exampleHistState.runbooks_cache = some exampleRunbook ∧
      alistGet "INC-2" (clear_runbook_cache "INC-2" exampleHistState).2.runbooks_cache = none ∧
      alistGet "INC-2" (clear_runbook_cache "INC-2" exampleHistState).2.execution_history =
        none) :=
  ⟨(expiry_frame_on_history 100 "INC-2" exampleHistState).1.2,
   by decide,
   ((expiry_frame_on_history 100 "INC-2" exampleHistState).2 exampleRunbook (by decide)).1,
   ((expiry_frame_on_history 100 "INC-2" exampleHistState).2 exampleRunbook (by decide)).2⟩

/-- Claim C5: a high-risk command requested with `dry_run=false` and a
confirmation text other than exactly "EXECUTE" is rejected with a 400 error that
states the required text, before the execution controller runs: no result is
produced and the execution history is untouched. -/
theorem high_risk_confirmation_gate (now : Int) (incident_id : String)
    (request : RunbookExecuteRequest) (st st1 : ApiState) (runbook : Runbook)
    (step : RunbookStep) (command : RunbookCommand)
    (hget : get_runbook_from_cache now incident_id st = (some runbook, st1))
    (hstep : runbook.steps.find? (fun s => s.step_number == request.step_number) = some step)
    (hnneg : 0 ≤ request.command_index)
    (hlt : request.command_index < (step.commands.length : Int))
    (hcmd : step.commands.get? request.command_index.toNat = some command)
    (hhigh : command.risk_level = "high") (hdry : request.dry_run = false)
    (hconf : request.confirmation_text ≠ some "EXECUTE") :
    execute_runbook_step now incident_id request st =
      (.error { status_code := 400,
                detail := "High-risk command requires confirmation text \x27EXECUTE\x27" },
       st1) ∧
    st1.execution_history = st.execution_history := by
  have hidx : ¬ request.command_index ≥ (step.commands.length : Int) := not_le.mpr hlt
  have hneg : ¬ request.command_index < 0 := not_lt.mpr hnneg
  constructor
  · simp only [execute_runbook_step, hget, hstep]
    rw [if_neg hidx]
    simp only [if_neg hneg, hcmd]
    rw [if_pos ⟨hhigh, hdry, hconf⟩]
  · have hframe := get_runbook_frame now incident_id st
    rw [hget] at hframe
    exact hframe

/-- Claim C5 witness: requesting live execution of the high-risk command with
confirmation "RUN" is rejected with the 400 detail naming the required text. -/
theorem high_risk_confirmation_gate_example :
    execute_runbook_step 10 "INC-2" ⟨1, 0, false, some "RUN", "user"⟩ exampleState =
      (.error { status_code := 400,
                detail := "High-risk command requires confirmation text \x27EXECUTE\x27" },
       exampleState) :=
  (high_risk_confirmation_gate 10 "INC-2" ⟨1, 0, false, some "RUN", "user"⟩ exampleState
    exampleState exampleRunbook exampleStep exampleHighCmd (by decide) (by decide)
    (by decide) (by decide) (by decide) (by decide) (by decide) (by decide)).1

/-- Claim C10: the index guard only rejects `command_index ≥ len(commands)`; a
negative index whose absolute value is at most the command count is accepted and
the command at position `len + command_index` is classified and executed (its
result is returned and appended to the history). -/
theorem negative_command_index (now : Int) (incident_id : String)
    (request : RunbookExecuteRequest) (st st1 : ApiState) (runbook : Runbook)
    (step : RunbookStep) (command : RunbookCommand)
    (hget : get_runbook_from_cache now incident_id st = (some runbook, st1))
    (hstep : runbook.steps.find? (fun s => s.step_number == request.step_number) = some step)
    (hneg : request.command_index < 0)
    (habs : request.command_index.natAbs ≤ step.commands.length)
    (hcmd : step.commands.get?
        ((step.commands.length : Int) + request.command_index).toNat = some command)
    (hdry : request.dry_run = true) :
    execute_runbook_step now incident_id request st =
      (.ok { execute_command command request.dry_run request.executed_by now now with
               step_number := request.step_number,
               command_index := request.command_index },
       { st1 with
         execution_history := alistSet incident_id
           (((alistGet incident_id st1.execution_history).getD []) ++
             [{ execute_command command request.dry_run request.executed_by now now with
                  step_number := request.step_number,
                  command_index := request.command_index }])
           st1.execution_history }) := by
  have hlen0 : (0 : Int) ≤ (step.commands.length : Int) := Int.natCast_nonneg _
  have hidx : ¬ request.command_index ≥ (step.commands.length : Int) := by omega
  have hpy : ¬ ((step.commands.length : Int) + request.command_index < 0) := by omega
  have hgate : ¬ (command.risk_level = "high" ∧ request.dry_run = false ∧
      request.confirmation_text ≠ some "EXECUTE") := by
    rintro ⟨_, h2, _⟩
    rw [hdry] at h2
    exact Bool.noConfusion h2
  simp only [execute_runbook_step, hget, hstep]
  rw [if_neg hidx]
  simp only [if_pos hneg, hcmd]
  rw [if_neg hpy, if_neg hgate]

/-- Claim C10 witness: `command_index = -1` on a two-command step executes the last
command and appends its result to the history. -/
theorem negative_command_index_example :
    execute_runbook_step 10 "INC-2" ⟨1, -1, true, none, "user"⟩ exampleState =
      (.ok { execute_command exampleSafeCmd true "user" 10 10 with
               step_number := 1, command_index := -1 },
       { exampleState with
         execution_history := alistSet "INC-2"
           (((alistGet "INC-2" exampleState.execution_history).getD []) ++
             [{ execute_command exampleSafeCmd true "user" 10 10 with
                  step_number := 1, command_index := -1 }])
           exampleState.execution_history }) :=
  negative_command_index 10 "INC-2" ⟨1, -1, true, none, "user"⟩ exampleState exampleState
    exampleRunbook exampleStep exampleSafeCmd (by decide) (by decide) (by decide) (by decide)
    (by decide) (by decide)
